import Mathlib

/-!
Shallow embedding of the image-alignment core of the logo-lapser repository
(src/services/imageProcessorService.ts), with the OpenCV.js primitives
(AKAZE detection, brute-force kNN matching, RANSAC affine/homography
estimation, warping, rasterization) abstracted into an environment record
whose fields hold the outcome each primitive call produces during one
alignment run.  The control flow, the mode-dependent constants, the error
messages, the matrix compositions and the allocation/release discipline of
the source are mirrored exactly; matrix entries and match distances are
modelled as exact rationals.
-/

namespace LogoLapser

/-- A 2x3 affine matrix (row-major entries), as produced by
`cv.estimateAffine2D` and consumed element-wise via `doubleAt` in the
source. -/
structure M23 where
  a00 : ℚ
  a01 : ℚ
  a02 : ℚ
  a10 : ℚ
  a11 : ℚ
  a12 : ℚ
deriving DecidableEq, Repr

/-- A 3x3 homography matrix (row-major entries), as produced by
`cv.findHomography` and by `cv.gemm`. -/
structure M33 where
  a00 : ℚ
  a01 : ℚ
  a02 : ℚ
  a10 : ℚ
  a11 : ℚ
  a12 : ℚ
  a20 : ℚ
  a21 : ℚ
  a22 : ℚ
deriving DecidableEq, Repr

/-- Embedding of a 2x3 affine into 3x3 homogeneous form with bottom row
`[0, 0, 1]`, exactly as built element-wise at source lines 158-162 (the
`affine3x3` matrix) and lines 226-230 (the `h1`/`h2` matrices). -/
def embed3 (A : M23) : M33 :=
  ⟨A.a00, A.a01, A.a02, A.a10, A.a11, A.a12, 0, 0, 1⟩

/-- Matrix product of two 3x3 matrices, the mathematical content of
`cv.gemm(P, Q, 1, new cv.Mat(), 0, out, 0)` in the source. -/
def M33.mul (P Q : M33) : M33 :=
  ⟨P.a00 * Q.a00 + P.a01 * Q.a10 + P.a02 * Q.a20,
   P.a00 * Q.a01 + P.a01 * Q.a11 + P.a02 * Q.a21,
   P.a00 * Q.a02 + P.a01 * Q.a12 + P.a02 * Q.a22,
   P.a10 * Q.a00 + P.a11 * Q.a10 + P.a12 * Q.a20,
   P.a10 * Q.a01 + P.a11 * Q.a11 + P.a12 * Q.a21,
   P.a10 * Q.a02 + P.a11 * Q.a12 + P.a12 * Q.a22,
   P.a20 * Q.a00 + P.a21 * Q.a10 + P.a22 * Q.a20,
   P.a20 * Q.a01 + P.a21 * Q.a11 + P.a22 * Q.a21,
   P.a20 * Q.a02 + P.a21 * Q.a12 + P.a22 * Q.a22⟩

/-- Extraction of the top two rows of a 3x3 matrix back into a 2x3 affine,
as done element-wise for `finalAffine` at source lines 235-236. -/
def M33.topRows (P : M33) : M23 :=
  ⟨P.a00, P.a01, P.a02, P.a10, P.a11, P.a12⟩

/-- Application of a 2x3 affine transform to a 2D point. -/
def applyAffine (A : M23) (x y : ℚ) : ℚ × ℚ :=
  (A.a00 * x + A.a01 * y + A.a02, A.a10 * x + A.a11 * y + A.a12)

/-- The homogeneous third coordinate produced when a 3x3 homography acts on
the homogeneous point `(x, y, 1)`. -/
def homDenom (H : M33) (x y : ℚ) : ℚ :=
  H.a20 * x + H.a21 * y + H.a22

/-- Application of a 3x3 homography to a 2D point (projective division by
the third homogeneous coordinate; meaningful when `homDenom H x y` is
nonzero). -/
def applyHom (H : M33) (x y : ℚ) : ℚ × ℚ :=
  ((H.a00 * x + H.a01 * y + H.a02) / homDenom H x y,
   (H.a10 * x + H.a11 * y + H.a12) / homDenom H x y)

/-- The transform returned by an alignment: either a 2x3 affine or a 3x3
homography, mirroring the two shapes `transformMatrix` can take in the
source. -/
inductive Transform where
  | affine (m : M23)
  | hom (m : M33)
deriving DecidableEq, Repr

/-- A `cv.DMatch`: indices into the query and train keypoint sets plus a
descriptor distance.  Distances are modelled as exact rationals. -/
structure DMatch where
  queryIdx : Nat
  trainIdx : Nat
  distance : ℚ
deriving DecidableEq, Repr

/-- The value returned by `performAlignment` on success (source line 251):
the final transform plus the good-match list.  The two returned keypoint
vectors are abstract native handles tracked by the allocation log instead. -/
structure AlignResult where
  transform : Transform
  goodMatches : List DMatch
deriving DecidableEq, Repr

/-- One tag per native-object allocation site inside `performAlignment`.
Tags whose names end in `Mask` are the anonymous `new cv.Mat()` arguments
passed inline to `detectAndCompute`, `estimateAffine2D` and `gemm`. -/
inductive Tag where
  | keypointsBase      -- line 36, new cv.KeyPointVector()
  | keypointsTarget    -- line 37
  | baseGray           -- line 43, pushed to mats
  | targetGray         -- line 44, pushed to mats
  | claheObj           -- line 48, new cv.CLAHE
  | akazeObj           -- line 52, new cv.AKAZE
  | bfMatcher          -- line 53, new cv.BFMatcher
  | descriptorsBase    -- line 55, pushed to mats
  | baseDetectMask     -- line 56, inline new cv.Mat() mask argument
  | descriptorsTarget  -- line 58, pushed to mats
  | targetDetectMask   -- line 59, inline new cv.Mat() mask argument
  | matchesVec         -- line 65, pushed to mats
  | matBasePts         -- line 92, pushed to mats
  | matTargetPts       -- line 93, pushed to mats
  | rawInlierMask      -- line 99 / line 172, inline new cv.Mat() passed to estimateAffine2D
  | affineRawMat       -- result of estimateAffine2D on the raw point mats (line 99 / 172)
  | warpedAffine       -- line 107, pushed to mats
  | warpedGrayP        -- line 112, pushed to mats
  | keypointsWarped    -- line 116, manually deleted
  | descriptorsWarped  -- line 117, pushed to mats
  | warpedDetectMask   -- line 118, inline new cv.Mat() mask argument
  | matchesRefinedP    -- line 120, pushed to mats
  | matWarpedPts       -- line 146, pushed to mats
  | matBasePtsRefP     -- line 147, pushed to mats
  | homographyRefineMat -- result of findHomography at line 149
  | affine3x3Mat       -- line 158, pushed to mats
  | gemmMaskP          -- line 166, inline new cv.Mat() passed to gemm
  | combinedHomographyMat -- line 165, returned to the caller on success
  | directHomographyMat -- result of the fallback findHomography (line 102 / 136 / 154)
  | warpedForRefine    -- line 178, pushed to mats
  | warpedGrayR        -- line 182, pushed to mats
  | keypointsRefined   -- line 187, manually deleted at line 243
  | descriptorsRefined -- line 188, pushed to mats
  | refinedDetectMask  -- line 189, inline new cv.Mat() mask argument
  | matchesRefinedR    -- line 192, pushed to mats
  | matBasePtsRefR     -- line 216, pushed to mats
  | matTargetPtsRefR   -- line 217, pushed to mats
  | refineInlierMask   -- line 219, inline new cv.Mat() passed to estimateAffine2D
  | affineRefinementMat -- line 219, pushed to mats (line 220)
  | h1Mat              -- line 223, pushed to mats
  | h2Mat              -- line 224, pushed to mats
  | gemmMaskR          -- line 233, inline new cv.Mat() passed to gemm
  | combinedHMat       -- line 232, pushed to mats
  | finalAffineMat     -- line 235, returned to the caller
deriving DecidableEq, Repr

/-- Environment of one `performAlignment` run: the outcome every native
vision primitive produces when the control flow reaches its call site.
`knn` fields hold the per-query-descriptor k-nearest-neighbour lists
(nearest first) that `bf.knnMatch(..., 2)` fills; `affineRaw` / `homRaw` /
`refineHom` / `refineAffine` are `none` exactly when the corresponding
RANSAC estimation call returns an empty matrix. -/
structure AlignEnv where
  baseRows : Nat                    -- descriptorsBase.rows after detectAndCompute
  targetRows : Nat                  -- descriptorsTarget.rows
  knn : List (List DMatch)          -- bf.knnMatch(descriptorsTarget, descriptorsBase, 2)
  affineRaw : Option M23            -- cv.estimateAffine2D(matTargetPts, matBasePts, ...)
  homRaw : Option M33               -- cv.findHomography(matTargetPts, matBasePts, RANSAC)
  knnWarped : List (List DMatch)    -- bf.knnMatch(descriptorsWarped, descriptorsBase, 2)
  refineHom : Option M33            -- cv.findHomography(matWarpedPts, matBasePtsRefined, RANSAC)
  refinedDescRows : Nat             -- descriptorsRefined.rows (non-perspective refinement)
  knnRefined : List (List DMatch)   -- bf.knnMatch(descriptorsRefined, descriptorsBase, 2)
  refineAffine : Option M23         -- cv.estimateAffine2D(matTargetPtsRefined, matBasePtsRefined, ...)

/-- Result of a `performAlignment` run together with its allocation log:
every native object allocated during the call and every native object
released before the call returned. -/
structure AlignOut where
  result : Except String AlignResult
  allocated : List Tag
  freed : List Tag

/-- The ratio-test loop of source lines 68-78 (and its twins at lines
124-131 and 196-205): for each kNN list, when it has more than one entry
keep the nearest match exactly when its distance is below the threshold
times the second-nearest distance. -/
def ratioFilter (thr : ℚ) : List (List DMatch) → List DMatch
  | [] => []
  | l :: rest =>
    match l with
    | m :: n :: _ =>
      if m.distance < thr * n.distance then m :: ratioFilter thr rest
      else ratioFilter thr rest
    | _ => ratioFilter thr rest

/-- The insufficient-matches error message built at source line 81. -/
def insufficientMsg (found required : Nat) : String :=
  "Not enough good matches found for alignment - " ++ toString found ++ "/"
    ++ toString required ++ "."

/-- Packaging of one exit of `performAlignment`: the `finally` block frees
every matrix pushed onto `mats` plus the AKAZE and CLAHE objects on every
exit path (source lines 257-261), and the `catch` block additionally frees
the two keypoint vectors on error paths (lines 253-256).  `manual` lists
the objects the body deleted explicitly before returning. -/
def mkOut (res : Except String AlignResult) (alloc mts manual : List Tag) : AlignOut :=
  { result := res
    allocated := alloc
    freed := manual ++ mts ++ [Tag.akazeObj, Tag.claheObj] ++
      (match res with
       | .error _ => [Tag.keypointsBase, Tag.keypointsTarget]
       | .ok _ => []) }

/-- Shallow embedding of `performAlignment` (source lines 25-262),
instrumented with the allocation log.  Mode constants, branch structure,
error messages, fallbacks and matrix compositions mirror the source; the
outcome of every native primitive call is read from the environment. -/
def performAlignmentFull (env : AlignEnv)
    (isGreedy useRefinement usePerspectiveCorrection : Bool) : AlignOut :=
  let minMatchCount : Nat := if isGreedy then 5 else 10
  let ratioThreshold : ℚ := if isGreedy then 85 / 100 else 75 / 100
  let preAlloc : List Tag :=
    [Tag.keypointsBase, Tag.keypointsTarget, Tag.baseGray, Tag.targetGray,
     Tag.claheObj, Tag.akazeObj, Tag.bfMatcher, Tag.descriptorsBase,
     Tag.baseDetectMask, Tag.descriptorsTarget, Tag.targetDetectMask,
     Tag.matchesVec]
  let preMats : List Tag :=
    [Tag.baseGray, Tag.targetGray, Tag.descriptorsBase, Tag.descriptorsTarget,
     Tag.matchesVec]
  if env.baseRows = 0 ∨ env.targetRows = 0 then
    mkOut (.error "Could not find features in one or both images for alignment.")
      preAlloc preMats []
  else
    let goodMatches := ratioFilter ratioThreshold env.knn
    if goodMatches.length < minMatchCount then
      mkOut (.error (insufficientMsg goodMatches.length minMatchCount))
        preAlloc preMats []
    else
      let alloc1 := preAlloc ++ [Tag.matBasePts, Tag.matTargetPts]
      let mats1 := preMats ++ [Tag.matBasePts, Tag.matTargetPts]
      if usePerspectiveCorrection then
        let alloc2 := alloc1 ++ [Tag.rawInlierMask, Tag.affineRawMat]
        match env.affineRaw with
        | none =>
          -- line 100-102: coarse affine failed, direct homography fallback
          let alloc3 := alloc2 ++ [Tag.directHomographyMat]
          (match env.homRaw with
           | some H => mkOut (.ok ⟨.hom H, goodMatches⟩) alloc3 mats1 []
           | none =>
             mkOut (.error "Could not compute the final transformation.")
               alloc3 mats1 [])
        | some A =>
          let mats2 := mats1 ++ [Tag.affineRawMat]
          let alloc3 := alloc2 ++ [Tag.warpedAffine, Tag.warpedGrayP,
            Tag.keypointsWarped, Tag.descriptorsWarped, Tag.warpedDetectMask,
            Tag.matchesRefinedP]
          let mats3 := mats2 ++ [Tag.warpedAffine, Tag.warpedGrayP,
            Tag.descriptorsWarped, Tag.matchesRefinedP]
          let goodMatchesRefined := ratioFilter ratioThreshold env.knnWarped
          if goodMatchesRefined.length < minMatchCount then
            -- line 133-136: fine-tuning matches insufficient, fallback
            let alloc4 := alloc3 ++ [Tag.directHomographyMat]
            (match env.homRaw with
             | some H =>
               mkOut (.ok ⟨.hom H, goodMatches⟩) alloc4 mats3 [Tag.keypointsWarped]
             | none =>
               mkOut (.error "Could not compute the final transformation.")
                 alloc4 mats3 [Tag.keypointsWarped])
          else
            let alloc4 := alloc3 ++ [Tag.matWarpedPts, Tag.matBasePtsRefP,
              Tag.homographyRefineMat]
            let mats4 := mats3 ++ [Tag.matWarpedPts, Tag.matBasePtsRefP]
            match env.refineHom with
            | none =>
              -- line 152-154: refinement homography empty, fallback
              let alloc5 := alloc4 ++ [Tag.directHomographyMat]
              (match env.homRaw with
               | some H =>
                 mkOut (.ok ⟨.hom H, goodMatches⟩) alloc5 mats4 [Tag.keypointsWarped]
               | none =>
                 mkOut (.error "Could not compute the final transformation.")
                   alloc5 mats4 [Tag.keypointsWarped])
            | some Hr =>
              -- lines 156-167: combined = homographyRefinement * affine3x3
              let mats5 := mats4 ++ [Tag.homographyRefineMat, Tag.affine3x3Mat]
              let alloc5 := alloc4 ++ [Tag.affine3x3Mat, Tag.combinedHomographyMat,
                Tag.gemmMaskP]
              mkOut (.ok ⟨.hom (M33.mul Hr (embed3 A)), goodMatches⟩)
                alloc5 mats5 [Tag.keypointsWarped]
      else
        let alloc2 := alloc1 ++ [Tag.rawInlierMask, Tag.affineRawMat]
        match env.affineRaw with
        | none =>
          -- line 173-175
          mkOut (.error "Could not compute the transformation.") alloc2 mats1 []
        | some A =>
          if useRefinement then
            let alloc3 := alloc2 ++ [Tag.warpedForRefine, Tag.warpedGrayR,
              Tag.keypointsRefined, Tag.descriptorsRefined, Tag.refinedDetectMask]
            let mats3 := mats1 ++ [Tag.warpedForRefine, Tag.warpedGrayR,
              Tag.descriptorsRefined]
            if 0 < env.refinedDescRows then
              let alloc4 := alloc3 ++ [Tag.matchesRefinedR]
              let mats4 := mats3 ++ [Tag.matchesRefinedR]
              let goodMatchesRefined := ratioFilter ratioThreshold env.knnRefined
              if minMatchCount ≤ goodMatchesRefined.length then
                let alloc5 := alloc4 ++ [Tag.matBasePtsRefR, Tag.matTargetPtsRefR,
                  Tag.refineInlierMask, Tag.affineRefinementMat]
                let mats5 := mats4 ++ [Tag.matBasePtsRefR, Tag.matTargetPtsRefR,
                  Tag.affineRefinementMat]
                match env.refineAffine with
                | some A2 =>
                  -- lines 222-239: compose the two affines via 3x3 embedding
                  let alloc6 := alloc5 ++ [Tag.h1Mat, Tag.h2Mat, Tag.gemmMaskR,
                    Tag.combinedHMat, Tag.finalAffineMat]
                  let mats6 := mats5 ++ [Tag.h1Mat, Tag.h2Mat, Tag.combinedHMat]
                  mkOut (.ok ⟨.affine (M33.topRows (M33.mul (embed3 A2) (embed3 A))),
                      goodMatches⟩)
                    alloc6 mats6 [Tag.affineRawMat, Tag.keypointsRefined]
                | none =>
                  -- refinement affine empty: silently keep the first affine
                  mkOut (.ok ⟨.affine A, goodMatches⟩) alloc5 mats5
                    [Tag.keypointsRefined]
              else
                -- re-match insufficient: silently keep the first affine
                mkOut (.ok ⟨.affine A, goodMatches⟩) alloc4 mats4
                  [Tag.keypointsRefined]
            else
              -- re-detection found no descriptors: keep the first affine
              mkOut (.ok ⟨.affine A, goodMatches⟩) alloc3 mats3
                [Tag.keypointsRefined]
          else
            mkOut (.ok ⟨.affine A, goodMatches⟩) alloc2 mats1 []

/-- The observable result of `performAlignment`: the returned value or the
propagated error, without the allocation log. -/
def performAlignment (env : AlignEnv)
    (isGreedy useRefinement usePerspectiveCorrection : Bool) :
    Except String AlignResult :=
  (performAlignmentFull env isGreedy useRefinement usePerspectiveCorrection).result

/-- JavaScript `Math.round(num / den)` for nonnegative `num` and positive
`den`, i.e. `floor(num / den + 1/2)`, computed exactly on naturals. -/
def jsRound (num den : Nat) : Nat :=
  (2 * num + den) / (2 * den)

/-- The final canvas width computed at source lines 336-345:
`targetAspectRatio` is hard-coded to `9.0 / 16.0`; when the warped aspect
`w / h` exceeds it the width stays `w`, otherwise it grows to
`round(h * (9/16))`.  The comparison `w / h > 9 / 16` is rendered exactly
as `9 * h < 16 * w`. -/
def finalWidth (w h : Nat) : Nat :=
  if 9 * h < 16 * w then w else jsRound (9 * h) 16

/-- The final canvas height of the same branch: grows to
`round(w / (9/16)) = round(16 * w / 9)` when the warped aspect exceeds the
hard-coded 9/16 target, otherwise stays `h`. -/
def finalHeight (w h : Nat) : Nat :=
  if 9 * h < 16 * w then jsRound (16 * w) 9 else h

/-- The padding geometry of one composited canvas. -/
structure PadSpec where
  finalW : Nat
  finalH : Nat
  leftPad : Nat
  rightPad : Nat
  topPad : Nat
  bottomPad : Nat
deriving DecidableEq, Repr

/-- The pad computation of source lines 334-353: `padX = finalWidth -
warpedWidth`, `leftPad = floor(padX / 2)` and the `copyMakeBorder` call
receives `(topPad, padY - topPad, leftPad, padX - leftPad)`. -/
def computePads (w h : Nat) : PadSpec :=
  { finalW := finalWidth w h
    finalH := finalHeight w h
    leftPad := (finalWidth w h - w) / 2
    rightPad := (finalWidth w h - w) - (finalWidth w h - w) / 2
    topPad := (finalHeight w h - h) / 2
    bottomPad := (finalHeight w h - h) - (finalHeight w h - h) / 2 }

/-- The diagnostic image produced by `processImageLocally`: either the 1x1
dummy canvas of the master short-circuit (source lines 297-299) or the
match visualization drawn by `cv.drawMatches` (lines 312-318). -/
inductive DebugImage where
  | placeholder1x1
  | matchViz (goodMatches : List DMatch)
deriving DecidableEq, Repr

/-- The 2x3 identity affine built at source line 294. -/
def identity2 : M23 := ⟨1, 0, 0, 0, 1, 0⟩

/-- The 3x3 identity homography built at source line 293. -/
def identity3 : M33 := ⟨1, 0, 0, 0, 1, 0, 0, 0, 1⟩

/-- Environment of one `processImageLocally` run.  `masterW`/`masterH` are
the master image dimensions; the warp destination size is
`(masterMat.cols, masterMat.rows)` (source line 326), so the warped image
has exactly these dimensions. -/
structure ProcEnv where
  cvLoaded : Bool      -- window.cv && window.cv.getBuildInformation
  masterEmpty : Bool   -- masterMat.empty()
  targetEmpty : Bool   -- targetMat.empty()
  masterW : Nat
  masterH : Nat
  align : AlignEnv

/-- Observable outcome of `processImageLocally`, with the internally used
transform, the diagnostic image, whether `performAlignment` was invoked,
and the final canvas padding exposed for specification. -/
structure ProcResult where
  transformUsed : Transform
  debug : DebugImage
  ranAlignment : Bool
  pads : PadSpec
deriving DecidableEq, Repr

/-- Shallow embedding of `processImageLocally` (source lines 264-370).
Note the source function has exactly six parameters and no aspect-ratio
parameter: the `targetAspectRatio` used by the padding step is the
hard-coded `9.0 / 16.0` inside `computeFinalDims`. -/
def processImageLocally (env : ProcEnv)
    (isGreedyMode isRefinementEnabled isPerspectiveCorrectionEnabled isMaster : Bool) :
    Except String ProcResult :=
  if ¬ env.cvLoaded then .error "OpenCV.js is not loaded yet."
  else if env.masterEmpty || env.targetEmpty then
    .error "Could not load images into OpenCV format."
  else
    let stage : Except String (Transform × DebugImage × Bool) :=
      if isMaster then
        .ok (if isPerspectiveCorrectionEnabled then Transform.hom identity3
             else Transform.affine identity2,
             DebugImage.placeholder1x1, false)
      else
        match performAlignment env.align isGreedyMode isRefinementEnabled
            isPerspectiveCorrectionEnabled with
        | .error e => .error e
        | .ok ar => .ok (ar.transform, DebugImage.matchViz ar.goodMatches, true)
    match stage with
    | .error e => .error e
    | .ok (t, d, ran) =>
      .ok { transformUsed := t
            debug := d
            ranAlignment := ran
            pads := computePads env.masterW env.masterH }

/-- The flag triple `(isGreedy, useRefinement, usePerspectiveCorrection)`
that `refineWithGoldenTemplate` passes to `performAlignment` at source
line 390: `performAlignment(templateMat, targetMat, false, true, false)`. -/
def goldenAlignFlags : Bool × Bool × Bool := (false, true, false)

/-- Environment of one `refineWithGoldenTemplate` run.  `render` abstracts
the deterministic rasterization of the warped image into a data URL
(warpAffine with transparent border into the template-sized canvas followed
by `toDataURL`). -/
structure GoldenEnv where
  decodeOk : Bool       -- dataUrlToImageElement(processedImageUrl) resolves
  templateEmpty : Bool  -- templateMat.empty()
  targetEmpty : Bool    -- targetMat.empty()
  align : AlignEnv
  render : Transform → String

/-- Result of `refineWithGoldenTemplate`, with the alignment flags it used
exposed for specification. -/
structure GoldenResult where
  url : String
  usedFlags : Bool × Bool × Bool

/-- The fallible body of `refineWithGoldenTemplate` (source lines 378-405):
everything inside the `try` block up to the returned data URL. -/
def goldenRefineBody (env : GoldenEnv) (_processedImageUrl : String) :
    Except String String :=
  if ¬ env.decodeOk then .error "Failed to decode processed image URL."
  else if env.templateEmpty || env.targetEmpty then
    .error "Could not load images for refinement."
  else
    match performAlignment env.align goldenAlignFlags.1 goldenAlignFlags.2.1
        goldenAlignFlags.2.2 with
    | .error e => .error e
    | .ok ar => .ok (env.render ar.transform)

/-- Shallow embedding of `refineWithGoldenTemplate` (source lines 373-412):
the catch block (lines 406-408) converts every failure of the body into
returning the original `processedImageUrl` unchanged. -/
def refineWithGoldenTemplate (env : GoldenEnv) (processedImageUrl : String) :
    GoldenResult :=
  match goldenRefineBody env processedImageUrl with
  | .ok s => { url := s, usedFlags := goldenAlignFlags }
  | .error _ => { url := processedImageUrl, usedFlags := goldenAlignFlags }

/-- Decidable equality of fallible results, for evaluating the embedding
at concrete inputs. -/
instance {ε α : Type} [DecidableEq ε] [DecidableEq α] : DecidableEq (Except ε α) :=
  fun a b =>
    match a, b with
    | .error e, .error f =>
      if h : e = f then .isTrue (by rw [h])
      else .isFalse (by intro hc; cases hc; exact h rfl)
    | .error _, .ok _ => .isFalse (by intro hc; cases hc)
    | .ok _, .error _ => .isFalse (by intro hc; cases hc)
    | .ok x, .ok y =>
      if h : x = y then .isTrue (by rw [h])
      else .isFalse (by intro hc; cases hc; exact h rfl)

/-- A dummy alignment environment for runs whose alignment oracle is never
consulted (master short-circuit paths). -/
def dummyAlignEnv : AlignEnv :=
  { baseRows := 0, targetRows := 0, knn := [], affineRaw := none, homRaw := none
    knnWarped := [], refineHom := none, refinedDescRows := 0, knnRefined := []
    refineAffine := none }

/-- Every match kept by the ratio-test loop comes from a kNN list with at
least two entries, is the nearest neighbour of that list, and beats the
threshold times the second-nearest distance. -/
theorem mem_ratioFilter {thr : ℚ} {knn : List (List DMatch)} {m : DMatch}
    (hm : m ∈ ratioFilter thr knn) :
    ∃ l ∈ knn, ∃ n rest, l = m :: n :: rest ∧ m.distance < thr * n.distance := by
  induction knn with
  | nil => simp [ratioFilter] at hm
  | cons l rest ih =>
    rcases l with _ | ⟨a, l1⟩
    · simp only [ratioFilter] at hm
      obtain ⟨l2, hl2, hrest⟩ := ih hm
      exact ⟨l2, List.mem_cons_of_mem _ hl2, hrest⟩
    · rcases l1 with _ | ⟨b, tail⟩
      · simp only [ratioFilter] at hm
        obtain ⟨l2, hl2, hrest⟩ := ih hm
        exact ⟨l2, List.mem_cons_of_mem _ hl2, hrest⟩
      · simp only [ratioFilter] at hm
        by_cases hd : a.distance < thr * b.distance
        · rw [if_pos hd] at hm
          rcases List.mem_cons.mp hm with h | h
          · refine ⟨a :: b :: tail, List.mem_cons_self _ _, b, tail, ?_, ?_⟩
            · rw [h]
            · rw [h]
              exact hd
          · obtain ⟨l2, hl2, hrest⟩ := ih h
            exact ⟨l2, List.mem_cons_of_mem _ hl2, hrest⟩
        · rw [if_neg hd] at hm
          obtain ⟨l2, hl2, hrest⟩ := ih hm
          exact ⟨l2, List.mem_cons_of_mem _ hl2, hrest⟩

/-- When every kNN list has fewer than two entries the ratio filter keeps
nothing. -/
theorem ratioFilter_eq_nil {thr : ℚ} {knn : List (List DMatch)}
    (h : ∀ l ∈ knn, l.length ≤ 1) : ratioFilter thr knn = [] := by
  induction knn with
  | nil => rfl
  | cons l rest ih =>
    have hl := h l (List.mem_cons_self _ _)
    have hrest := ih fun l2 hl2 => h l2 (List.mem_cons_of_mem _ hl2)
    rcases l with _ | ⟨a, l1⟩
    · simpa [ratioFilter] using hrest
    · rcases l1 with _ | ⟨b, tail⟩
      · simpa [ratioFilter] using hrest
      · simp at hl

/-- C9: for all warped dimensions `(w, h)` with `w, h ≥ 1`, the padded
canvas `(W, H) = computePads w h` satisfies `W ≥ w` and `H ≥ h`, the
horizontal pad `W - w` splits as `leftPad = floor((W - w) / 2)` and
`rightPad = (W - w) - leftPad`, the vertical pad splits as
`topPad = floor((H - h) / 2)` and `bottomPad = (H - h) - topPad`, and an
odd pad amount puts the extra pixel on the trailing (right / bottom)
side. -/
theorem C9_padding_split (w h : Nat) (_hw : 1 ≤ w) (_hh : 1 ≤ h) :
    w ≤ (computePads w h).finalW ∧ h ≤ (computePads w h).finalH ∧
    (computePads w h).leftPad = ((computePads w h).finalW - w) / 2 ∧
    (computePads w h).rightPad =
      ((computePads w h).finalW - w) - (computePads w h).leftPad ∧
    (computePads w h).topPad = ((computePads w h).finalH - h) / 2 ∧
    (computePads w h).bottomPad =
      ((computePads w h).finalH - h) - (computePads w h).topPad ∧
    (Odd ((computePads w h).finalW - w) →
      (computePads w h).rightPad = (computePads w h).leftPad + 1) ∧
    (Odd ((computePads w h).finalH - h) →
      (computePads w h).bottomPad = (computePads w h).topPad + 1) := by
  simp only [computePads]
  refine ⟨?_, ?_, trivial, trivial, trivial, trivial, ?_, ?_⟩
  · simp only [finalWidth, jsRound]
    split <;> omega
  · simp only [finalHeight, jsRound]
    split <;> omega
  · intro ho
    rw [Nat.odd_iff] at ho
    omega
  · intro ho
    rw [Nat.odd_iff] at ho
    omega

/-- Witness instantiating C9 at the concrete warped dimensions 1 x 1
(final canvas 1 x 2, a single odd vertical pad pixel on the bottom). -/
theorem C9_padding_split_witness :
    1 ≤ (computePads 1 1).finalW ∧ 1 ≤ (computePads 1 1).finalH ∧
    (computePads 1 1).leftPad = ((computePads 1 1).finalW - 1) / 2 ∧
    (computePads 1 1).rightPad =
      ((computePads 1 1).finalW - 1) - (computePads 1 1).leftPad ∧
    (computePads 1 1).topPad = ((computePads 1 1).finalH - 1) / 2 ∧
    (computePads 1 1).bottomPad =
      ((computePads 1 1).finalH - 1) - (computePads 1 1).topPad ∧
    (Odd ((computePads 1 1).finalW - 1) →
      (computePads 1 1).rightPad = (computePads 1 1).leftPad + 1) ∧
    (Odd ((computePads 1 1).finalH - 1) →
      (computePads 1 1).bottomPad = (computePads 1 1).topPad + 1) :=
  C9_padding_split 1 1 (by decide) (by decide)

/-- Environment for the C1 run: OpenCV loaded, both images load, a square
100 x 100 master (so the warped image is 100 x 100), master-vs-master
short circuit. -/
def c1ProcEnv : ProcEnv :=
  { cvLoaded := true, masterEmpty := false, targetEmpty := false
    masterW := 100, masterH := 100, align := dummyAlignEnv }

/-- C1 is violated by the code: `processImageLocally` accepts no aspect
ratio at all (its six parameters end at `isMaster`; the `aspectRatio`
value App.tsx passes as a seventh argument is dropped) and pads with the
hard-coded 9/16 target.  With a 100 x 100 warped image the padded canvas
is 100 x 178 — the 9:16 shape — so a caller-selected 1:1 (or 16:9) ratio
is never honoured. -/
theorem C1_aspect_ratio_hardcoded :
    processImageLocally c1ProcEnv false false false true =
      .ok ⟨Transform.affine identity2, DebugImage.placeholder1x1, false,
        computePads 100 100⟩ ∧
    (computePads 100 100).finalW = 100 ∧
    (computePads 100 100).finalH = 178 ∧
    (computePads 100 100).finalW ≠ (computePads 100 100).finalH := by
  refine ⟨by decide, by decide, by decide, by decide⟩

/-- C7: when the target is the master itself, `processImageLocally` skips
alignment entirely (no detection or matching runs), uses the 3x3 identity
when perspective correction is enabled and the 2x3 identity otherwise, and
emits the 1x1 placeholder diagnostic image. -/
theorem C7_master_short_circuit (env : ProcEnv) (g r p : Bool)
    (hcv : env.cvLoaded = true) (hm : env.masterEmpty = false)
    (ht : env.targetEmpty = false) :
    processImageLocally env g r p true =
      .ok { transformUsed := if p then Transform.hom identity3
              else Transform.affine identity2
            debug := DebugImage.placeholder1x1
            ranAlignment := false
            pads := computePads env.masterW env.masterH } := by
  simp [processImageLocally, hcv, hm, ht]

/-- Witness instantiating C7 with perspective correction enabled at a
concrete environment. -/
theorem C7_master_short_circuit_witness :
    processImageLocally c1ProcEnv true true true true =
      .ok { transformUsed := if true then Transform.hom identity3
              else Transform.affine identity2
            debug := DebugImage.placeholder1x1
            ranAlignment := false
            pads := computePads 100 100 } :=
  C7_master_short_circuit c1ProcEnv true true true rfl rfl rfl

/-- Environment with descriptors present on both sides but no kNN output,
for exercising the insufficient-matches gate. -/
def c4Env : AlignEnv :=
  { baseRows := 1, targetRows := 1, knn := [], affineRaw := none, homRaw := none
    knnWarped := [], refineHom := none, refinedDescRows := 0, knnRefined := []
    refineAffine := none }

/-- C4: the correspondence filter keeps a candidate only when its kNN list
has two entries and the nearest distance beats the mode threshold (0.75
normal, 0.85 greedy) times the second-nearest distance, and when the
good-match count is below the mode minimum (10 normal, 5 greedy)
`performAlignment` fails with the message built from the actual count and
the minimum-match threshold. -/
theorem C4_mode_constants_and_gate (env : AlignEnv) (g r p : Bool)
    (hfeat : ¬(env.baseRows = 0 ∨ env.targetRows = 0))
    (hlt : (ratioFilter (if g then (85:ℚ)/100 else 75/100) env.knn).length <
      (if g then 5 else 10)) :
    (∀ m ∈ ratioFilter (if g then (85:ℚ)/100 else 75/100) env.knn,
      ∃ l ∈ env.knn, ∃ n rest, l = m :: n :: rest ∧
        m.distance < (if g then (85:ℚ)/100 else 75/100) * n.distance) ∧
    performAlignment env g r p =
      .error ("Not enough good matches found for alignment - " ++
        toString (ratioFilter (if g then (85:ℚ)/100 else 75/100) env.knn).length ++
        "/" ++ toString (if g then (5:Nat) else 10) ++ ".") := by
  constructor
  · intro m hm
    exact mem_ratioFilter hm
  · simp only [performAlignment, performAlignmentFull]
    rw [if_neg hfeat, if_pos hlt]
    simp [mkOut, insufficientMsg]

/-- Witness instantiating C4 in normal mode with an empty kNN result:
zero good matches, failure message "0/10". -/
theorem C4_mode_constants_and_gate_witness :
    (∀ m ∈ ratioFilter ((75:ℚ)/100) c4Env.knn,
      ∃ l ∈ c4Env.knn, ∃ n rest, l = m :: n :: rest ∧
        m.distance < (75:ℚ)/100 * n.distance) ∧
    performAlignment c4Env false false false =
      .error "Not enough good matches found for alignment - 0/10." :=
  C4_mode_constants_and_gate c4Env false false false (by decide) (by decide)

/-- Environment for C10: the reference descriptor matrix has exactly one
row, so by kNN semantics every match list has at most one entry. -/
def c10Env : AlignEnv :=
  { baseRows := 1, targetRows := 1, knn := [[⟨0, 0, 1⟩]], affineRaw := none
    homRaw := none, knnWarped := [], refineHom := none, refinedDescRows := 0
    knnRefined := [], refineAffine := none }

/-- C10: when the reference descriptor matrix has exactly one row (every
kNN list then has fewer than two entries, by the kNN postcondition that a
query cannot have more neighbours than there are train descriptors) and is
not empty, the ratio-test loop keeps nothing, and `performAlignment` fails
with the insufficient-matches message at count zero rather than the
missing-features error. -/
theorem C10_single_train_row (env : AlignEnv) (g r p : Bool)
    (hbase : env.baseRows = 1) (htarget : env.targetRows ≠ 0)
    (hknn : ∀ l ∈ env.knn, l.length ≤ env.baseRows) :
    ratioFilter (if g then (85:ℚ)/100 else 75/100) env.knn = [] ∧
    performAlignment env g r p =
      .error (insufficientMsg 0 (if g then 5 else 10)) := by
  have hnil : ratioFilter (if g then (85:ℚ)/100 else 75/100) env.knn = [] :=
    ratioFilter_eq_nil fun l hl => by
      have := hknn l hl
      omega
  refine ⟨hnil, ?_⟩
  have hfeat : ¬(env.baseRows = 0 ∨ env.targetRows = 0) := by
    rw [hbase]
    simp [htarget]
  have hpos : (([] : List DMatch)).length < (if g then 5 else 10) := by
    cases g <;> decide
  simp only [performAlignment, performAlignmentFull]
  rw [if_neg hfeat, hnil, if_pos hpos]
  simp [mkOut]

/-- Witness instantiating C10 at a one-row reference descriptor matrix in
normal mode. -/
theorem C10_single_train_row_witness :
    ratioFilter ((75:ℚ)/100) c10Env.knn = [] ∧
    performAlignment c10Env false false false =
      .error (insufficientMsg 0 10) :=
  C10_single_train_row c10Env false false false rfl (by decide) (by decide)

/-- A kNN list whose nearest match passes the 0.75 ratio test
(1 < 0.75 * 2). -/
def goodPair : List DMatch := [⟨0, 0, 1⟩, ⟨1, 1, 2⟩]

/-- Ten ratio-test-passing kNN lists: enough good matches for the normal
mode gate. -/
def knnTen : List (List DMatch) :=
  [goodPair, goodPair, goodPair, goodPair, goodPair,
   goodPair, goodPair, goodPair, goodPair, goodPair]

/-- Evaluation of the normal-mode ratio filter on `knnTen`: all ten
nearest matches survive. -/
theorem knnTen_filter :
    ratioFilter ((75:ℚ)/100) knnTen =
      [⟨0, 0, 1⟩, ⟨0, 0, 1⟩, ⟨0, 0, 1⟩, ⟨0, 0, 1⟩, ⟨0, 0, 1⟩,
       ⟨0, 0, 1⟩, ⟨0, 0, 1⟩, ⟨0, 0, 1⟩, ⟨0, 0, 1⟩, ⟨0, 0, 1⟩] := by
  have h : ((1:ℚ) < 75/100 * 2) := by norm_num
  simp [knnTen, goodPair, ratioFilter, h]

/-- Environment refuting C5 as stated: the good-match gate passes with ten
matches, but the raw affine estimation returns an empty matrix. -/
def c5CexEnv : AlignEnv :=
  { baseRows := 5, targetRows := 5, knn := knnTen, affineRaw := none
    homRaw := none, knnWarped := [], refineHom := none, refinedDescRows := 0
    knnRefined := [], refineAffine := none }

/-- Counterexample to C5 as stated: with the initial good-match gate passed
(ten good matches in normal mode), a strategy-internal estimation failure
does propagate out of `performAlignment` — the non-perspective strategy
throws "Could not compute the transformation." when the first affine fit
comes back empty. -/
theorem C5_counterexample :
    10 ≤ (ratioFilter ((75:ℚ)/100) c5CexEnv.knn).length ∧
    performAlignment c5CexEnv false false false =
      .error "Could not compute the transformation." := by
  have hgate : ¬((ratioFilter ((75:ℚ)/100) knnTen).length < 10) := by
    rw [knnTen_filter]
    decide
  constructor
  · show 10 ≤ (ratioFilter ((75:ℚ)/100) knnTen).length
    omega
  · have hfeat : ¬(c5CexEnv.baseRows = 0 ∨ c5CexEnv.targetRows = 0) := by
      simp [c5CexEnv]
    have haff : c5CexEnv.affineRaw = none := rfl
    have hknn : c5CexEnv.knn = knnTen := rfl
    simp [performAlignment, performAlignmentFull, mkOut, hfeat, hgate, haff, hknn]

/-- Amended C5: the enumerated strategy-internal failures do trigger their
documented fallbacks without throwing — in the perspective strategy an
empty coarse affine, an insufficient refined match count, or an empty
refinement homography each fall back to the one-shot homography on the raw
correspondences, and in the non-perspective refinement strategy an empty
re-detection, an insufficient re-match, or an empty refinement affine each
silently keep the first affine — but two estimation failures still
propagate after the gate: an empty initial affine fit in the
non-perspective strategy, and an empty fallback homography in the
perspective strategy. -/
theorem C5_fallbacks (env : AlignEnv) (g r : Bool)
    (hfeat : ¬(env.baseRows = 0 ∨ env.targetRows = 0))
    (hgate : ¬((ratioFilter (if g then (85:ℚ)/100 else 75/100) env.knn).length <
      (if g then 5 else 10))) :
    (∀ H, env.affineRaw = none → env.homRaw = some H →
      performAlignment env g r true =
        .ok ⟨Transform.hom H,
          ratioFilter (if g then (85:ℚ)/100 else 75/100) env.knn⟩) ∧
    (∀ A H, env.affineRaw = some A →
      (ratioFilter (if g then (85:ℚ)/100 else 75/100) env.knnWarped).length <
        (if g then 5 else 10) →
      env.homRaw = some H →
      performAlignment env g r true =
        .ok ⟨Transform.hom H,
          ratioFilter (if g then (85:ℚ)/100 else 75/100) env.knn⟩) ∧
    (∀ A H, env.affineRaw = some A →
      ¬((ratioFilter (if g then (85:ℚ)/100 else 75/100) env.knnWarped).length <
        (if g then 5 else 10)) →
      env.refineHom = none → env.homRaw = some H →
      performAlignment env g r true =
        .ok ⟨Transform.hom H,
          ratioFilter (if g then (85:ℚ)/100 else 75/100) env.knn⟩) ∧
    (∀ A, env.affineRaw = some A → env.refinedDescRows = 0 →
      performAlignment env g true false =
        .ok ⟨Transform.affine A,
          ratioFilter (if g then (85:ℚ)/100 else 75/100) env.knn⟩) ∧
    (∀ A, env.affineRaw = some A → 0 < env.refinedDescRows →
      ¬((if g then 5 else 10) ≤
        (ratioFilter (if g then (85:ℚ)/100 else 75/100) env.knnRefined).length) →
      performAlignment env g true false =
        .ok ⟨Transform.affine A,
          ratioFilter (if g then (85:ℚ)/100 else 75/100) env.knn⟩) ∧
    (∀ A, env.affineRaw = some A → 0 < env.refinedDescRows →
      ((if g then 5 else 10) ≤
        (ratioFilter (if g then (85:ℚ)/100 else 75/100) env.knnRefined).length) →
      env.refineAffine = none →
      performAlignment env g true false =
        .ok ⟨Transform.affine A,
          ratioFilter (if g then (85:ℚ)/100 else 75/100) env.knn⟩) ∧
    (env.affineRaw = none →
      performAlignment env g r false =
        .error "Could not compute the transformation.") ∧
    (env.affineRaw = none → env.homRaw = none →
      performAlignment env g r true =
        .error "Could not compute the final transformation.") := by
  refine ⟨?_, ?_, ?_, ?_, ?_, ?_, ?_, ?_⟩
  · intro H ha hh
    simp [performAlignment, performAlignmentFull, mkOut, hfeat, hgate, ha, hh]
  · intro A H ha hshort hh
    simp [performAlignment, performAlignmentFull, mkOut, hfeat, hgate, ha, hshort, hh]
  · intro A H ha hlong hr hh
    simp [performAlignment, performAlignmentFull, mkOut, hfeat, hgate, ha, hlong, hr, hh]
  · intro A ha hzero
    simp [performAlignment, performAlignmentFull, mkOut, hfeat, hgate, ha, hzero]
  · intro A ha hpos hshort
    simp [performAlignment, performAlignmentFull, mkOut, hfeat, hgate, ha, hpos, hshort]
  · intro A ha hpos hlong hra
    simp [performAlignment, performAlignmentFull, mkOut, hfeat, hgate, ha, hpos, hlong, hra]
  · intro ha
    simp [performAlignment, performAlignmentFull, mkOut, hfeat, hgate, ha]
  · intro ha hh
    simp [performAlignment, performAlignmentFull, mkOut, hfeat, hgate, ha, hh]

/-- Environment exercising the first C5 fallback: coarse affine empty, raw
homography available. -/
def c5WitEnv : AlignEnv :=
  { baseRows := 5, targetRows := 5, knn := knnTen, affineRaw := none
    homRaw := some identity3, knnWarped := [], refineHom := none
    refinedDescRows := 0, knnRefined := [], refineAffine := none }

/-- Witness instantiating the first amended-C5 fallback: empty coarse
affine in the perspective strategy falls back to the raw homography. -/
theorem C5_fallbacks_witness :
    performAlignment c5WitEnv false false true =
      .ok ⟨Transform.hom identity3, ratioFilter ((75:ℚ)/100) c5WitEnv.knn⟩ :=
  (C5_fallbacks c5WitEnv false false (by simp [c5WitEnv])
    (by
      show ¬((ratioFilter ((75:ℚ)/100) knnTen).length < 10)
      rw [knnTen_filter]
      decide)).1 identity3 rfl rfl

/-- Alignment environment for the C2 counterexample: the refinement round
succeeds and replaces the first affine by a composed, different affine. -/
def c2AlignEnv : AlignEnv :=
  { baseRows := 5, targetRows := 5, knn := knnTen
    affineRaw := some identity2, homRaw := none, knnWarped := []
    refineHom := none, refinedDescRows := 1, knnRefined := knnTen
    refineAffine := some ⟨1, 0, 5, 0, 1, 7⟩ }

/-- Golden-template environment for the C2 counterexample. -/
def c2Env : GoldenEnv :=
  { decodeOk := true, templateEmpty := false, targetEmpty := false
    align := c2AlignEnv, render := fun _ => "rendered" }

/-- Counterexample to C2 as stated: the Golden-Template Refiner invokes
`performAlignment` with `useRefinement = true` (source line 390 passes
`(false, true, false)`), and enabling that flag genuinely changes the
produced transform — the affine-with-refinement strategy does run a second
detect/match/fit round. -/
theorem C2_counterexample :
    (refineWithGoldenTemplate c2Env "orig").usedFlags = (false, true, false) ∧
    performAlignment c2Env.align false true false ≠
      performAlignment c2Env.align false false false := by
  have hgate : ¬((ratioFilter ((75:ℚ)/100) knnTen).length < 10) := by
    rw [knnTen_filter]
    decide
  have hlong : (10:Nat) ≤ (ratioFilter ((75:ℚ)/100) knnTen).length := by omega
  have hfeat : ¬(c2AlignEnv.baseRows = 0 ∨ c2AlignEnv.targetRows = 0) := by
    simp [c2AlignEnv]
  have hknn : c2AlignEnv.knn = knnTen := rfl
  have hknnR : c2AlignEnv.knnRefined = knnTen := rfl
  have haff : c2AlignEnv.affineRaw = some identity2 := rfl
  have hrows : (0:Nat) < c2AlignEnv.refinedDescRows := by simp [c2AlignEnv]
  have hra : c2AlignEnv.refineAffine = some ⟨1, 0, 5, 0, 1, 7⟩ := rfl
  have halign : c2Env.align = c2AlignEnv := rfl
  constructor
  · unfold refineWithGoldenTemplate
    split <;> rfl
  · have e1 : performAlignment c2Env.align false true false =
        .ok ⟨Transform.affine (M33.topRows (M33.mul (embed3 ⟨1, 0, 5, 0, 1, 7⟩)
          (embed3 identity2))), ratioFilter ((75:ℚ)/100) knnTen⟩ := by
      rw [halign]
      simp [performAlignment, performAlignmentFull, mkOut, hfeat, hgate, hknn,
        hknnR, haff, hrows, hlong, hra]
    have e2 : performAlignment c2Env.align false false false =
        .ok ⟨Transform.affine identity2, ratioFilter ((75:ℚ)/100) knnTen⟩ := by
      rw [halign]
      simp [performAlignment, performAlignmentFull, mkOut, hfeat, hgate, hknn, haff]
    rw [e1, e2]
    intro hc
    rw [Except.ok.injEq, AlignResult.mk.injEq] at hc
    have ht := hc.1
    rw [Transform.affine.injEq] at ht
    have h02 : (M33.topRows (M33.mul (embed3 ⟨1, 0, 5, 0, 1, 7⟩)
        (embed3 identity2))).a02 = (identity2 : M23).a02 := by rw [ht]
    norm_num [M33.topRows, M33.mul, embed3, identity2] at h02

/-- Amended C2: the internal alignment of the Golden-Template Refiner is a
single `performAlignment` call with greedy mode off and perspective
correction off, but with the affine-with-refinement strategy enabled
(`useRefinement = true`). -/
theorem C2_golden_flags (env : GoldenEnv) (url : String) :
    (refineWithGoldenTemplate env url).usedFlags = (false, true, false) := by
  unfold refineWithGoldenTemplate
  split <;> rfl

/-- C8: `refineWithGoldenTemplate` never propagates a failure — whenever
its fallible body fails (image decode failure, empty inputs, any
`performAlignment` error), the original input URL is returned unchanged,
and on success the rendered refined image is returned. -/
theorem C8_fail_soft (env : GoldenEnv) (url : String) :
    (∀ e, goldenRefineBody env url = .error e →
      (refineWithGoldenTemplate env url).url = url) ∧
    (∀ s, goldenRefineBody env url = .ok s →
      (refineWithGoldenTemplate env url).url = s) := by
  constructor
  · intro e he
    simp [refineWithGoldenTemplate, he]
  · intro s hs
    simp [refineWithGoldenTemplate, hs]

/-- Golden-template environment whose template image fails to load. -/
def c8Env : GoldenEnv :=
  { decodeOk := true, templateEmpty := true, targetEmpty := false
    align := dummyAlignEnv, render := fun _ => "rendered" }

/-- Witness instantiating C8 at a failing environment: the original URL
comes back unchanged. -/
theorem C8_fail_soft_witness :
    (refineWithGoldenTemplate c8Env "original-url").url = "original-url" :=
  (C8_fail_soft c8Env "original-url").1
    "Could not load images for refinement." rfl

/-- C6: in the coarse-to-fine perspective strategy the returned transform
is exactly the matrix product `homography_refine * embed3(coarse affine)`
(refinement applied second/outer), and applying that product to a point
equals applying the coarse affine first and the refinement homography
second (exactly over the rationals, hence within any floating-point
tolerance). -/
theorem C6_coarse_to_fine_composition (env : AlignEnv) (g r : Bool) (A : M23)
    (Hr : M33) (x y : ℚ)
    (hfeat : ¬(env.baseRows = 0 ∨ env.targetRows = 0))
    (hgate : ¬((ratioFilter (if g then (85:ℚ)/100 else 75/100) env.knn).length <
      (if g then 5 else 10)))
    (ha : env.affineRaw = some A)
    (hwg : ¬((ratioFilter (if g then (85:ℚ)/100 else 75/100) env.knnWarped).length <
      (if g then 5 else 10)))
    (hh : env.refineHom = some Hr)
    (_hden : homDenom (M33.mul Hr (embed3 A)) x y ≠ 0) :
    performAlignment env g r true =
      .ok ⟨Transform.hom (M33.mul Hr (embed3 A)),
        ratioFilter (if g then (85:ℚ)/100 else 75/100) env.knn⟩ ∧
    applyHom (M33.mul Hr (embed3 A)) x y =
      applyHom Hr (applyAffine A x y).1 (applyAffine A x y).2 := by
  constructor
  · simp [performAlignment, performAlignmentFull, mkOut, hfeat, hgate, ha, hwg, hh]
  · have hden2 : homDenom Hr (applyAffine A x y).1 (applyAffine A x y).2 =
        homDenom (M33.mul Hr (embed3 A)) x y := by
      simp only [homDenom, applyAffine, M33.mul, embed3]
      ring
    have hnum1 : Hr.a00 * (applyAffine A x y).1 + Hr.a01 * (applyAffine A x y).2 +
        Hr.a02 =
        (M33.mul Hr (embed3 A)).a00 * x + (M33.mul Hr (embed3 A)).a01 * y +
          (M33.mul Hr (embed3 A)).a02 := by
      simp only [applyAffine, M33.mul, embed3]
      ring
    have hnum2 : Hr.a10 * (applyAffine A x y).1 + Hr.a11 * (applyAffine A x y).2 +
        Hr.a12 =
        (M33.mul Hr (embed3 A)).a10 * x + (M33.mul Hr (embed3 A)).a11 * y +
          (M33.mul Hr (embed3 A)).a12 := by
      simp only [applyAffine, M33.mul, embed3]
      ring
    simp only [applyHom, hden2, hnum1, hnum2]

/-- Alignment environment for the C6 witness: a nontrivial coarse affine
and refinement homography. -/
def c6Env : AlignEnv :=
  { baseRows := 5, targetRows := 5, knn := knnTen
    affineRaw := some ⟨2, 0, 1, 0, 2, 1⟩, homRaw := none, knnWarped := knnTen
    refineHom := some ⟨1, 0, 0, 0, 1, 0, 0, 0, 2⟩, refinedDescRows := 0
    knnRefined := [], refineAffine := none }

/-- Witness instantiating C6 at concrete matrices and the point (1, 1). -/
theorem C6_coarse_to_fine_composition_witness :
    performAlignment c6Env false false true =
      .ok ⟨Transform.hom (M33.mul ⟨1, 0, 0, 0, 1, 0, 0, 0, 2⟩
          (embed3 ⟨2, 0, 1, 0, 2, 1⟩)),
        ratioFilter ((75:ℚ)/100) c6Env.knn⟩ ∧
    applyHom (M33.mul ⟨1, 0, 0, 0, 1, 0, 0, 0, 2⟩ (embed3 ⟨2, 0, 1, 0, 2, 1⟩)) 1 1 =
      applyHom ⟨1, 0, 0, 0, 1, 0, 0, 0, 2⟩
        (applyAffine ⟨2, 0, 1, 0, 2, 1⟩ 1 1).1 (applyAffine ⟨2, 0, 1, 0, 2, 1⟩ 1 1).2 :=
  C6_coarse_to_fine_composition c6Env false false ⟨2, 0, 1, 0, 2, 1⟩
    ⟨1, 0, 0, 0, 1, 0, 0, 0, 2⟩ 1 1 (by simp [c6Env])
    (by
      show ¬((ratioFilter ((75:ℚ)/100) knnTen).length < 10)
      rw [knnTen_filter]
      decide)
    rfl
    (by
      show ¬((ratioFilter ((75:ℚ)/100) knnTen).length < 10)
      rw [knnTen_filter]
      decide)
    rfl
    (by norm_num [homDenom, M33.mul, embed3])

/-- Environment for the C3 leak run: normal mode, no refinement, no
perspective, gate passed, affine fit succeeds — the plain success path. -/
def c3Env : AlignEnv :=
  { baseRows := 5, targetRows := 5, knn := knnTen
    affineRaw := some identity2, homRaw := none, knnWarped := []
    refineHom := none, refinedDescRows := 0, knnRefined := []
    refineAffine := none }

/-- C3 is violated by the code: on a plain successful alignment the inline
`new cv.Mat()` allocated as the RANSAC inlier-mask argument of
`estimateAffine2D` (source line 172), the inline AKAZE mask mats (lines
56 and 59) and the `BFMatcher` (line 53) are allocated during the call but
appear on no release path — they are neither pushed onto `mats` (freed in
the `finally` block) nor deleted manually, while the claim requires every
such object, explicitly including RANSAC inlier-mask matrices, to be
released before the call returns. -/
theorem C3_inlier_mask_leak :
    (performAlignmentFull c3Env false false false).result =
      .ok ⟨Transform.affine identity2, ratioFilter ((75:ℚ)/100) c3Env.knn⟩ ∧
    Tag.rawInlierMask ∈ (performAlignmentFull c3Env false false false).allocated ∧
    Tag.rawInlierMask ∉ (performAlignmentFull c3Env false false false).freed ∧
    Tag.bfMatcher ∈ (performAlignmentFull c3Env false false false).allocated ∧
    Tag.bfMatcher ∉ (performAlignmentFull c3Env false false false).freed ∧
    Tag.baseDetectMask ∈ (performAlignmentFull c3Env false false false).allocated ∧
    Tag.baseDetectMask ∉ (performAlignmentFull c3Env false false false).freed := by
  have hgate : ¬((ratioFilter ((75:ℚ)/100) knnTen).length < 10) := by
    rw [knnTen_filter]
    decide
  have hfeat : ¬(c3Env.baseRows = 0 ∨ c3Env.targetRows = 0) := by simp [c3Env]
  have hknn : c3Env.knn = knnTen := rfl
  have haff : c3Env.affineRaw = some identity2 := rfl
  have hout : performAlignmentFull c3Env false false false =
      mkOut (.ok ⟨Transform.affine identity2, ratioFilter ((75:ℚ)/100) knnTen⟩)
        ([Tag.keypointsBase, Tag.keypointsTarget, Tag.baseGray, Tag.targetGray,
          Tag.claheObj, Tag.akazeObj, Tag.bfMatcher, Tag.descriptorsBase,
          Tag.baseDetectMask, Tag.descriptorsTarget, Tag.targetDetectMask,
          Tag.matchesVec] ++ [Tag.matBasePts, Tag.matTargetPts] ++
          [Tag.rawInlierMask, Tag.affineRawMat])
        ([Tag.baseGray, Tag.targetGray, Tag.descriptorsBase, Tag.descriptorsTarget,
          Tag.matchesVec] ++ [Tag.matBasePts, Tag.matTargetPts]) [] := by
    simp [performAlignmentFull, hfeat, hgate, hknn, haff]
  rw [hout]
  simp only [mkOut]
  refine ⟨rfl, ?_, ?_, ?_, ?_, ?_, ?_⟩ <;> decide

end LogoLapser
